import Mathlib

/-!
Verification of the Memfault reboot-tracking and fault-capture subsystem
(memfault-arduino-library).

The RISC-V fault handling latch (prv_fault_handling_assert,
memfault_arch_fault_handling_assert, memfault_fault_handler) is embedded
directly from the source file.  The reboot-tracking core itself is only
declared in the provided sources (reboot_tracking.h); its operations are
modelled from the specification, as marked in each doc comment.
-/

/-- Modelled from the spec: the reboot-reason enumeration
(reboot_reason_types.h is not among the provided sources).  Expected
reasons per section 4.2 are user-initiated resets, firmware-update
resets and low-power/software resets; faults, watchdog and unknown-error
reasons are unexpected, and Unknown (numeric 0) is the absent value. -/
inductive eMemfaultRebootReason where
  | Unknown
  | UserShutdown
  | UserReset
  | FirmwareUpdate
  | LowPower
  | SoftwareReset
  | UnknownError
  | Assert
  | Watchdog
  | HardFault
deriving DecidableEq

/-- Numeric wire codes for the reboot reasons: expected reasons sit in the
low range, unexpected reasons in the high (0x8000 and above) range. -/
def reasonToNat : eMemfaultRebootReason → Nat
  | .Unknown => 0x0000
  | .UserShutdown => 0x0001
  | .UserReset => 0x0002
  | .FirmwareUpdate => 0x0003
  | .LowPower => 0x0004
  | .SoftwareReset => 0x0008
  | .UnknownError => 0x8000
  | .Assert => 0x8001
  | .Watchdog => 0x8002
  | .HardFault => 0x9100

/-- Partial inverse of reasonToNat: unknown codes decode to none. -/
def reasonOfNat (n : Nat) : Option eMemfaultRebootReason :=
  if n = 0x0000 then some .Unknown
  else if n = 0x0001 then some .UserShutdown
  else if n = 0x0002 then some .UserReset
  else if n = 0x0003 then some .FirmwareUpdate
  else if n = 0x0004 then some .LowPower
  else if n = 0x0008 then some .SoftwareReset
  else if n = 0x8000 then some .UnknownError
  else if n = 0x8001 then some .Assert
  else if n = 0x8002 then some .Watchdog
  else if n = 0x9100 then some .HardFault
  else none

/-- Modelled from the spec (section 4.2): reasons that indicate an
explicitly expected reboot (user-initiated, firmware update, or a
defined expected reason). -/
def reasonExpected : eMemfaultRebootReason → Bool
  | .UserShutdown => true
  | .UserReset => true
  | .FirmwareUpdate => true
  | .LowPower => true
  | .SoftwareReset => true
  | _ => false

/-- Register snapshot captured when a reset is marked imminent
(struct MfltRebootTrackingRegInfo from reboot_tracking.h). -/
structure sMfltRebootTrackingRegInfo where
  pc : Nat
  lr : Nat
deriving DecidableEq

/-- Optional bootup information handed to boot
(struct BootupInfo from reboot_tracking.h). -/
structure sResetBootupInfo where
  reset_reason_reg : Nat
  reset_reason : eMemfaultRebootReason
deriving DecidableEq

/-- The pair of reasons reported by the reboot-reason query
(struct MfltRebootType from reboot_tracking.h). -/
structure sMfltRebootReason where
  reboot_reg_reason : eMemfaultRebootReason
  prior_stored_reason : eMemfaultRebootReason
deriving DecidableEq

/-- Sentinel for an absent pending reason (reboot_tracking.h). -/
def MEMFAULT_REBOOT_REASON_NOT_SET : Nat := 0xffffffff

/-- Size in bytes of the persistent region (reboot_tracking.h). -/
def MEMFAULT_REBOOT_TRACKING_REGION_SIZE : Nat := 64

/-- Saturation bound of the persisted crash counter (a 32-bit field). -/
def crashCountMax : Nat := 0xffffffff

/-- Modelled from the spec (section 3): the decoded contents of the
persistent region.  pending_reason is none when the NOT_SET sentinel is
stored; regValid records whether a register snapshot accompanies the
pending reason. -/
structure RebootRecord where
  pending_reason : Option eMemfaultRebootReason
  regValid : Bool
  pc : Nat
  lr : Nat
  coredump_saved : Bool
  crash_count : Nat
deriving DecidableEq

/-- The record a device that has never stored reboot information is
treated as holding: no pending reason, no snapshot, zero crash count. -/
def freshRecord : RebootRecord :=
  { pending_reason := none
    regValid := false
    pc := 0
    lr := 0
    coredump_saved := false
    crash_count := 0 }

/-- Byte i of a region, 0 out of range. -/
def byteAt (region : List Nat) (i : Nat) : Nat := region.getD i 0

/-- Little-endian 32-bit word starting at byte i of a region. -/
def u32At (region : List Nat) (i : Nat) : Nat :=
  byteAt region i + 0x100 * byteAt region (i + 1) +
    0x10000 * byteAt region (i + 2) + 0x1000000 * byteAt region (i + 3)

/-- Modelled from the spec (section 4.1): integrity check over the field
bytes (12..31) of the region. -/
def regionChecksum (region : List Nat) : Nat :=
  (((List.range 20).map (fun i => byteAt region (12 + i))).sum) % 0x100000000

/-- Decode the stored pending-reason word: the all-ones sentinel means no
pending reason; any other word must be a known reason code, otherwise
the record is rejected. -/
def decodePending (n : Nat) : Option (Option eMemfaultRebootReason) :=
  if n = MEMFAULT_REBOOT_REASON_NOT_SET then some none
  else (reasonOfNat n).map some

/-- Modelled from the spec (sections 3 and 4.1): decode of the 64-byte
persistent region.  Layout: bytes 0..3 magic, byte 4 version, byte 5
register-snapshot-valid flag, byte 6 coredump-saved flag, bytes 8..11
checksum, bytes 12..15 pending reason, 16..19 pc, 20..23 lr, 24..27
crash count.  Any magic/version mismatch or failed integrity check
yields none, which callers treat as no prior record. -/
def decodeRebootRegion (region : List Nat) : Option RebootRecord :=
  if region.length = MEMFAULT_REBOOT_TRACKING_REGION_SIZE ∧
      byteAt region 0 = 0x4d ∧ byteAt region 1 = 0x46 ∧
      byteAt region 2 = 0x4c ∧ byteAt region 3 = 0x54 ∧
      byteAt region 4 = 1 ∧
      byteAt region 5 ≤ 1 ∧ byteAt region 6 ≤ 1 ∧
      u32At region 8 = regionChecksum region then
    (decodePending (u32At region 12)).map (fun pending =>
      { pending_reason := pending
        regValid := byteAt region 5 = 1
        pc := u32At region 16
        lr := u32At region 20
        coredump_saved := byteAt region 6 = 1
        crash_count := u32At region 24 })
  else none

/-- The reset information serialized by the event exporter: the
reconciled reason, the register snapshot when one was captured with the
pending reason, and the coredump-saved flag. -/
structure ResetInfo where
  reason : eMemfaultRebootReason
  reg : Option sMfltRebootTrackingRegInfo
  coredump_saved : Bool
deriving DecidableEq

/-- The process-wide snapshot computed once per boot (section 3). -/
structure BootupSnapshot where
  reboot_reg_reason : eMemfaultRebootReason
  prior_stored_reason : eMemfaultRebootReason
  unexpected_occurred : Bool
  resetInfo : Option ResetInfo
deriving DecidableEq

/-- The reboot-tracking module state: the persistent record, the bootup
snapshot (none before boot has run), and whether the current boot's
reset info has already been drained to event storage. -/
structure MfltState where
  record : RebootRecord
  snapshot : Option BootupSnapshot
  resetInfoExported : Bool
deriving DecidableEq

/-- State before boot has run. -/
def initialMfltState : MfltState :=
  { record := freshRecord, snapshot := none, resetInfoExported := false }

/-- Modelled from the spec (section 4.2 step 4): a reboot is unexpected
unless both the register-derived reason and the software-stored reason
indicate an explicitly expected reboot; an Unknown register reason
combined with an expected software reason is not unexpected. -/
def classifyUnexpected (regReason stored : eMemfaultRebootReason) : Bool :=
  !(reasonExpected stored &&
     (reasonExpected regReason || decide (regReason = .Unknown)))

/-- Modelled from the spec (section 4.2): boot-time reconciliation over
an already-decoded record.  The pending reason (when valid) becomes the
prior stored reason and is consumed; otherwise a non-zero caller
supplied reason is used as fallback.  The crash count is incremented,
saturating at crashCountMax, exactly when the reboot is classified
unexpected; per the fresh-region scenario of section 8, a boot carrying
no reset information at all (no pending reason, no register reason, no
register value) records nothing and leaves the count unchanged. -/
def bootFromRecord (rec : RebootRecord) (info : Option sResetBootupInfo) :
    MfltState :=
  let regReason := match info with
    | some i => i.reset_reason
    | none => eMemfaultRebootReason.Unknown
  let stored := match rec.pending_reason with
    | some r => r
    | none => regReason
  let hasInfo := rec.pending_reason.isSome ||
    !(decide (regReason = eMemfaultRebootReason.Unknown)) ||
    (match info with
     | some i => !(decide (i.reset_reason_reg = 0))
     | none => false)
  let unexpected := hasInfo && classifyUnexpected regReason stored
  let count := if unexpected then min (rec.crash_count + 1) crashCountMax
    else rec.crash_count
  let reconciled := if stored = eMemfaultRebootReason.Unknown then regReason
    else stored
  let rInfo : Option ResetInfo := if hasInfo then
      some { reason := reconciled
             reg := if rec.regValid && rec.pending_reason.isSome then
                 some { pc := rec.pc, lr := rec.lr } else none
             coredump_saved := rec.coredump_saved }
    else none
  { record := { rec with pending_reason := none, crash_count := count }
    snapshot := some { reboot_reg_reason := regReason
                       prior_stored_reason := stored
                       unexpected_occurred := unexpected
                       resetInfo := rInfo }
    resetInfoExported := false }

/-- Modelled from the spec (sections 4.2 and 6): boot decodes the
persistent region, degrading any invalid or corrupt region to a fresh
record, and reconciles. -/
def memfault_reboot_tracking_boot (region : List Nat)
    (info : Option sResetBootupInfo) : MfltState :=
  bootFromRecord ((decodeRebootRegion region).getD freshRecord) info

/-- Modelled from the spec (section 4.4): latch a reason for the next
reset.  First recorded reason wins: if a pending reason is already
latched the call is a no-op. -/
def memfault_reboot_tracking_mark_reset_imminent
    (reason : eMemfaultRebootReason)
    (reg : Option sMfltRebootTrackingRegInfo) (s : MfltState) : MfltState :=
  if s.record.pending_reason.isSome then s
  else
    match reg with
    | some r =>
        { s with record := { s.record with
            pending_reason := some reason
            regValid := true
            pc := r.pc
            lr := r.lr } }
    | none =>
        { s with record := { s.record with
            pending_reason := some reason
            regValid := false } }

/-- Modelled from the spec (section 4.4): set coredump_saved on the
currently latched pending record; ignored if no reason is latched. -/
def memfault_reboot_tracking_mark_coredump_saved (s : MfltState) : MfltState :=
  if s.record.pending_reason.isSome then
    { s with record := { s.record with coredump_saved := true } }
  else s

/-- Modelled from the spec (section 4.3) and the size_t signature of
reboot_tracking.h: returns the persisted count, zero if boot has not
run.  There is no error channel. -/
def memfault_reboot_tracking_get_crash_count (s : MfltState) : Nat :=
  if s.snapshot.isSome then s.record.crash_count else 0

/-- Modelled from the spec (section 4.3): zero the persisted crash
count. -/
def memfault_reboot_tracking_reset_crash_count (s : MfltState) : MfltState :=
  { s with record := { s.record with crash_count := 0 } }

/-- Modelled from the spec (section 4.6) and reboot_tracking.h: returns
the two reconciled reasons, or error code 1 while not booted. -/
def memfault_reboot_tracking_get_reboot_reason (s : MfltState) :
    Except Nat sMfltRebootReason :=
  match s.snapshot with
  | none => Except.error 1
  | some sn => Except.ok { reboot_reg_reason := sn.reboot_reg_reason
                           prior_stored_reason := sn.prior_stored_reason }

/-- Modelled from the spec (section 4.6) and reboot_tracking.h: returns
the unexpected-reboot flag, or error code 1 while not booted. -/
def memfault_reboot_tracking_get_unexpected_reboot_occurred (s : MfltState) :
    Except Nat Bool :=
  match s.snapshot with
  | none => Except.error 1
  | some sn => Except.ok sn.unexpected_occurred

/-- Modelled from the spec (section 4.6): pure query of the boot state. -/
def memfault_reboot_tracking_booted (s : MfltState) : Bool :=
  s.snapshot.isSome

/-- Little-endian 16-bit serialization. -/
def u16le (n : Nat) : List Nat := [n % 0x100, n / 0x100 % 0x100]

/-- Little-endian 32-bit serialization. -/
def u32le (n : Nat) : List Nat :=
  [n % 0x100, n / 0x100 % 0x100, n / 0x10000 % 0x100, n / 0x1000000 % 0x100]

/-- Modelled from the spec (section 4.5): the serialized reboot event:
a type byte, the reason code, the coredump-saved flag, and the register
snapshot when present. -/
def serialize_reset_info (i : ResetInfo) : List Nat :=
  [0x01] ++ u16le (reasonToNat i.reason) ++
    [if i.coredump_saved then 1 else 0] ++
    (match i.reg with
     | some r => u32le r.pc ++ u32le r.lr
     | none => [])

/-- Modelled from the spec (section 4.5): constant worst-case number of
bytes needed to serialize a reboot event, computed without reference to
any record contents: 4 fixed bytes plus an 8-byte register snapshot. -/
def memfault_reboot_tracking_compute_worst_case_storage_size : Nat := 12

/-- The external event-storage sink: an append-only byte sink with a
remaining-capacity concept (section 6). -/
structure EventSink where
  capacity : Nat
  events : List (List Nat)
deriving DecidableEq

/-- Append an event to the sink; fails when capacity is insufficient. -/
def sinkWrite (bytes : List Nat) (k : EventSink) : Option EventSink :=
  if bytes.length ≤ k.capacity then
    some { capacity := k.capacity - bytes.length
           events := k.events ++ [bytes] }
  else none

/-- Modelled from the spec (section 4.5): drain the current boot's reset
information into the sink.  Returns (return code, new state, new sink).
Nothing new to report (not booted, already exported, or no reset info)
returns 0 with no side effect; a rejected sink write returns 1 and
leaves the state unmarked so a retry re-attempts the same content. -/
def memfault_reboot_tracking_collect_reset_info (s : MfltState)
    (k : EventSink) : Nat × MfltState × EventSink :=
  match s.snapshot with
  | none => (0, s, k)
  | some sn =>
    if s.resetInfoExported then (0, s, k)
    else
      match sn.resetInfo with
      | none => (0, s, k)
      | some i =>
        match sinkWrite (serialize_reset_info i) k with
        | some k2 => (0, { s with resetInfoExported := true }, k2)
        | none => (1, s, k)

/-- The runtime operations available after boot, used to state that the
booted state is permanent. -/
inductive MfltOp where
  | markResetImminent (reason : eMemfaultRebootReason)
      (reg : Option sMfltRebootTrackingRegInfo)
  | markCoredumpSaved
  | resetCrashCount
  | collectResetInfo (k : EventSink)

/-- Apply one runtime operation to the module state. -/
def applyOp (op : MfltOp) (s : MfltState) : MfltState :=
  match op with
  | .markResetImminent r reg =>
      memfault_reboot_tracking_mark_reset_imminent r reg s
  | .markCoredumpSaved => memfault_reboot_tracking_mark_coredump_saved s
  | .resetCrashCount => memfault_reboot_tracking_reset_crash_count s
  | .collectResetInfo k =>
      (memfault_reboot_tracking_collect_reset_info s k).2.1

/-- Exception register state of the RISC-V handler (fields used by the
source: mepc, ra, sp). -/
structure sMfltRegState where
  mepc : Nat
  ra : Nat
  sp : Nat
deriving DecidableEq

/-- Combined state of the RISC-V fault-handling source file: the static
latch s_crash_reason (initialized to Unknown each boot cycle), the
reboot-tracking module state, and a log of the reasons passed to
memfault_reboot_tracking_mark_reset_imminent, recording each
invocation. -/
structure RiscvFaultState where
  s_crash_reason : eMemfaultRebootReason
  mflt : MfltState
  markLog : List eMemfaultRebootReason
deriving DecidableEq

/-- Embedding of prv_fault_handling_assert: if s_crash_reason is not
Unknown the call has already happened once and is ignored; otherwise the
reason is latched into s_crash_reason and
memfault_reboot_tracking_mark_reset_imminent is invoked with it and the
captured pc/lr. -/
def prv_fault_handling_assert (pc lr : Nat)
    (reason : eMemfaultRebootReason) (st : RiscvFaultState) :
    RiscvFaultState :=
  if st.s_crash_reason = eMemfaultRebootReason.Unknown then
    { s_crash_reason := reason
      mflt := memfault_reboot_tracking_mark_reset_imminent reason
        (some { pc := pc, lr := lr }) st.mflt
      markLog := st.markLog ++ [reason] }
  else st

/-- Embedding of memfault_arch_fault_handling_assert, which forwards to
prv_fault_handling_assert. -/
def memfault_arch_fault_handling_assert (pc lr : Nat)
    (reason : eMemfaultRebootReason) (st : RiscvFaultState) :
    RiscvFaultState :=
  prv_fault_handling_assert pc lr reason st

/-- Result of the fault handler: the new state, the trace reason placed
in the coredump save info, and whether the coredump writer reported a
successful capture. -/
structure FaultHandlerResult where
  state : RiscvFaultState
  trace_reason : eMemfaultRebootReason
  coredump_saved : Bool
deriving DecidableEq

/-- Embedding of memfault_fault_handler.  save_ok stands for the return
value of the external memfault_coredump_save collaborator.  When
s_crash_reason is still Unknown, prv_fault_handling_assert runs first
with the exception registers; the coredump is then saved with
trace_reason equal to the current s_crash_reason, and
memfault_reboot_tracking_mark_coredump_saved is invoked exactly when the
save succeeded. -/
def memfault_fault_handler (regs : sMfltRegState)
    (reason : eMemfaultRebootReason) (save_ok : Bool)
    (st : RiscvFaultState) : FaultHandlerResult :=
  let st1 := if st.s_crash_reason = eMemfaultRebootReason.Unknown then
      prv_fault_handling_assert regs.mepc regs.ra reason st
    else st
  let tr := st1.s_crash_reason
  let st2 := if save_ok then
      { st1 with
        mflt := memfault_reboot_tracking_mark_coredump_saved st1.mflt }
    else st1
  { state := st2, trace_reason := tr, coredump_saved := save_ok }

/-- One recorded call to the fault-handling assert path. -/
structure PrvCall where
  pc : Nat
  lr : Nat
  reason : eMemfaultRebootReason
deriving DecidableEq

/-- Apply a sequence of fault-handling assert calls. -/
def applyPrvCalls : List PrvCall → RiscvFaultState → RiscvFaultState
  | [], st => st
  | c :: cs, st =>
      applyPrvCalls cs (prv_fault_handling_assert c.pc c.lr c.reason st)

/- ------------------------------------------------------------------ -/
/- Helper lemmas                                                      -/
/- ------------------------------------------------------------------ -/

theorem mark_reset_imminent_latched (reason : eMemfaultRebootReason)
    (reg : Option sMfltRebootTrackingRegInfo) (s : MfltState)
    (h : s.record.pending_reason.isSome = true) :
    memfault_reboot_tracking_mark_reset_imminent reason reg s = s := by
  simp [memfault_reboot_tracking_mark_reset_imminent, h]

theorem mark_reset_imminent_fresh (reason : eMemfaultRebootReason)
    (reg : Option sMfltRebootTrackingRegInfo) (s : MfltState)
    (h : s.record.pending_reason = none) :
    (memfault_reboot_tracking_mark_reset_imminent reason reg
      s).record.pending_reason = some reason := by
  cases reg <;>
    simp [memfault_reboot_tracking_mark_reset_imminent, h]

theorem prv_assert_run (pc lr : Nat) (reason : eMemfaultRebootReason)
    (st : RiscvFaultState)
    (h : st.s_crash_reason = eMemfaultRebootReason.Unknown) :
    prv_fault_handling_assert pc lr reason st =
      { s_crash_reason := reason
        mflt := memfault_reboot_tracking_mark_reset_imminent reason
          (some { pc := pc, lr := lr }) st.mflt
        markLog := st.markLog ++ [reason] } := by
  unfold prv_fault_handling_assert
  rw [if_pos h]

theorem prv_assert_pending_stable (c : PrvCall) (t : RiscvFaultState)
    (r : eMemfaultRebootReason)
    (h : t.mflt.record.pending_reason = some r) :
    (prv_fault_handling_assert c.pc c.lr c.reason
      t).mflt.record.pending_reason = some r := by
  unfold prv_fault_handling_assert
  split
  · rw [mark_reset_imminent_latched _ _ _ (by simp [h])]
    exact h
  · exact h

theorem applyPrvCalls_pending_stable (calls : List PrvCall)
    (t : RiscvFaultState) (r : eMemfaultRebootReason)
    (h : t.mflt.record.pending_reason = some r) :
    (applyPrvCalls calls t).mflt.record.pending_reason = some r := by
  induction calls generalizing t with
  | nil => exact h
  | cons c cs ih =>
      exact ih _ (prv_assert_pending_stable c t r h)

theorem bootFromRecord_snapshot (rec : RebootRecord)
    (info : Option sResetBootupInfo) :
    (bootFromRecord rec info).snapshot.isSome = true := by
  simp [bootFromRecord]

theorem collect_exported (t : MfltState) (k0 : EventSink)
    (ht : t.resetInfoExported = true) :
    memfault_reboot_tracking_collect_reset_info t k0 = (0, t, k0) := by
  unfold memfault_reboot_tracking_collect_reset_info
  split
  · rfl
  · rw [if_pos ht]

theorem collect_cases (s : MfltState) (k : EventSink) :
    memfault_reboot_tracking_collect_reset_info s k = (0, s, k) ∨
    (∃ sn i k2, s.snapshot = some sn ∧ sn.resetInfo = some i ∧
      sinkWrite (serialize_reset_info i) k = some k2 ∧
      memfault_reboot_tracking_collect_reset_info s k =
        (0, { s with resetInfoExported := true }, k2)) ∨
    memfault_reboot_tracking_collect_reset_info s k = (1, s, k) := by
  unfold memfault_reboot_tracking_collect_reset_info
  split
  · exact Or.inl rfl
  · rename_i sn hsnap
    split
    · exact Or.inl rfl
    · split
      · exact Or.inl rfl
      · rename_i i hinfo
        split
        · rename_i k2 hw
          exact Or.inr (Or.inl ⟨sn, i, k2, hsnap, hinfo, hw, rfl⟩)
        · exact Or.inr (Or.inr rfl)

/- ------------------------------------------------------------------ -/
/- Sample states used by witnesses                                    -/
/- ------------------------------------------------------------------ -/

/-- A concrete snapshot of a hard-fault reboot, used by witnesses. -/
def sampleSnapshot : BootupSnapshot :=
  { reboot_reg_reason := .Unknown
    prior_stored_reason := .HardFault
    unexpected_occurred := true
    resetInfo := some { reason := .HardFault
                        reg := some { pc := 0x100, lr := 0x200 }
                        coredump_saved := true } }

/-- A concrete booted module state, used by witnesses. -/
def sampleBootedState : MfltState :=
  { record := { freshRecord with crash_count := 1 }
    snapshot := some sampleSnapshot
    resetInfoExported := false }

/-- A concrete sink with room for one worst-case event. -/
def sampleSink : EventSink := { capacity := 32, events := [] }

/-- A fresh boot-cycle state of the RISC-V fault-handling file. -/
def sampleFreshFaultState : RiscvFaultState :=
  { s_crash_reason := .Unknown
    mflt := initialMfltState
    markLog := [] }

/- ------------------------------------------------------------------ -/
/- Claims                                                             -/
/- ------------------------------------------------------------------ -/

/-- C1: within one boot cycle (fault latch fresh, no pending reason) and
without an intervening boot, any non-empty sequence of fault-handling
assert calls leaves the first call's reason recorded as the pending
reason, the reason recovered after boot-time reconciliation is that
first reason, and once a reason is latched every further call is a no-op
with respect to the reason field. -/
theorem c1_first_reason_wins (first : PrvCall) (rest : List PrvCall)
    (st : RiscvFaultState)
    (hfresh : st.s_crash_reason = eMemfaultRebootReason.Unknown)
    (hpend : st.mflt.record.pending_reason = none) :
    (applyPrvCalls (first :: rest) st).mflt.record.pending_reason =
        some first.reason ∧
    (∃ sn, (bootFromRecord
        (applyPrvCalls (first :: rest) st).mflt.record none).snapshot =
          some sn ∧ sn.prior_stored_reason = first.reason) ∧
    (∀ (c : PrvCall) (t : RiscvFaultState) (r : eMemfaultRebootReason),
      t.mflt.record.pending_reason = some r →
      (prv_fault_handling_assert c.pc c.lr c.reason
        t).mflt.record.pending_reason = some r) := by
  have hfirst : (prv_fault_handling_assert first.pc first.lr first.reason
      st).mflt.record.pending_reason = some first.reason := by
    unfold prv_fault_handling_assert
    rw [if_pos hfresh]
    exact mark_reset_imminent_fresh _ _ _ hpend
  have hall : (applyPrvCalls (first :: rest) st).mflt.record.pending_reason =
      some first.reason :=
    applyPrvCalls_pending_stable rest _ _ hfirst
  refine ⟨hall, ?_, fun c t r h => prv_assert_pending_stable c t r h⟩
  refine ⟨_, rfl, ?_⟩
  simp [bootFromRecord, hall]

/-- Witness for C1 at a concrete two-call sequence (Assert then
Watchdog): the recorded pending reason is Assert. -/
theorem c1_first_reason_wins_witness :
    (applyPrvCalls
      [{ pc := 1, lr := 2, reason := .Assert },
       { pc := 3, lr := 4, reason := .Watchdog }]
      sampleFreshFaultState).mflt.record.pending_reason =
        some eMemfaultRebootReason.Assert :=
  (c1_first_reason_wins { pc := 1, lr := 2, reason := .Assert }
    [{ pc := 3, lr := 4, reason := .Watchdog }]
    sampleFreshFaultState rfl rfl).1

/-- C2: the worst-case storage size is a constant (a closed definition
taking no state), every serialized reset event fits within it, and hence
every event that collect_reset_info appends to the sink is within the
bound. -/
theorem c2_worst_case_storage_bound :
    (∀ i : ResetInfo, (serialize_reset_info i).length ≤
      memfault_reboot_tracking_compute_worst_case_storage_size) ∧
    (∀ (s : MfltState) (k : EventSink) (e : List Nat),
      e ∈ ((memfault_reboot_tracking_collect_reset_info s k).2.2).events →
      e ∈ k.events ∨ e.length ≤
        memfault_reboot_tracking_compute_worst_case_storage_size) := by
  have hlen : ∀ i : ResetInfo, (serialize_reset_info i).length ≤
      memfault_reboot_tracking_compute_worst_case_storage_size := by
    intro i
    cases hr : i.reg <;>
      simp [serialize_reset_info, u16le, u32le, hr,
        memfault_reboot_tracking_compute_worst_case_storage_size]
  refine ⟨hlen, ?_⟩
  intro s k e he
  rcases collect_cases s k with h | ⟨sn, i, k2, hsnap, hinfo, hw, h⟩ | h
  · rw [h] at he
    exact Or.inl he
  · rw [h] at he
    unfold sinkWrite at hw
    split at hw
    · simp only [Option.some.injEq] at hw
      subst hw
      simp only [List.mem_append, List.mem_singleton] at he
      rcases he with he | he
      · exact Or.inl he
      · subst he
        exact Or.inr (hlen i)
    · cases hw
  · rw [h] at he
    exact Or.inl he

/-- Witness for C2: collecting from a concrete booted state appends one
event within the worst-case bound to an empty sink. -/
theorem c2_worst_case_storage_bound_witness :
    ∀ e ∈ ((memfault_reboot_tracking_collect_reset_info sampleBootedState
      sampleSink).2.2).events,
      e ∈ sampleSink.events ∨ e.length ≤
        memfault_reboot_tracking_compute_worst_case_storage_size :=
  fun e he => c2_worst_case_storage_bound.2 sampleBootedState sampleSink e he

/-- C3: collect_reset_info is idempotent within a boot cycle.  If the
current reset info is already exported the call returns 0 and writes
nothing; whenever a call returns 0 a repeat call is an exact no-op
returning 0; on a rejected sink write the call returns non-zero and
leaves state and sink unchanged, so a retry re-attempts the same
content. -/
theorem c3_collect_idempotent (s : MfltState) (k : EventSink) :
    (s.resetInfoExported = true →
      memfault_reboot_tracking_collect_reset_info s k = (0, s, k)) ∧
    ((memfault_reboot_tracking_collect_reset_info s k).1 = 0 →
      memfault_reboot_tracking_collect_reset_info
        (memfault_reboot_tracking_collect_reset_info s k).2.1
        (memfault_reboot_tracking_collect_reset_info s k).2.2 =
      (0, (memfault_reboot_tracking_collect_reset_info s k).2.1,
        (memfault_reboot_tracking_collect_reset_info s k).2.2)) ∧
    ((memfault_reboot_tracking_collect_reset_info s k).1 ≠ 0 →
      (memfault_reboot_tracking_collect_reset_info s k).2.1 = s ∧
      (memfault_reboot_tracking_collect_reset_info s k).2.2 = k) := by
  refine ⟨collect_exported s k, ?_, ?_⟩
  · intro h0
    rcases collect_cases s k with h | ⟨sn, i, k2, hsnap, hinfo, hw, h⟩ | h
    · rw [h]
      exact h
    · rw [h]
      exact collect_exported _ _ rfl
    · rw [h] at h0
      simp at h0
  · intro hne
    rcases collect_cases s k with h | ⟨sn, i, k2, hsnap, hinfo, hw, h⟩ | h
    · rw [h] at hne
      simp at hne
    · rw [h] at hne
      simp at hne
    · rw [h]
      exact ⟨rfl, rfl⟩

/-- Witness for C3: after a successful collect from a concrete booted
state, a second collect is an exact no-op returning 0. -/
theorem c3_collect_idempotent_witness :
    memfault_reboot_tracking_collect_reset_info
      (memfault_reboot_tracking_collect_reset_info sampleBootedState
        sampleSink).2.1
      (memfault_reboot_tracking_collect_reset_info sampleBootedState
        sampleSink).2.2 =
    (0, (memfault_reboot_tracking_collect_reset_info sampleBootedState
        sampleSink).2.1,
      (memfault_reboot_tracking_collect_reset_info sampleBootedState
        sampleSink).2.2) :=
  (c3_collect_idempotent sampleBootedState sampleSink).2.1 (by decide)

/-- C4: boot never fails.  For every region content boot produces a
booted state, and whenever the region fails to decode (magic/version
mismatch or failed integrity check, e.g. all-0xFF or garbage) it is
treated as no prior record: the reason query succeeds reporting
prior_stored_reason Unknown and the crash count reads 0. -/
theorem c4_garbage_region_safe (region : List Nat) :
    (∀ info : Option sResetBootupInfo,
      memfault_reboot_tracking_booted
        (memfault_reboot_tracking_boot region info) = true) ∧
    (decodeRebootRegion region = none →
      memfault_reboot_tracking_get_reboot_reason
        (memfault_reboot_tracking_boot region none) =
        Except.ok { reboot_reg_reason := .Unknown
                    prior_stored_reason := .Unknown } ∧
      memfault_reboot_tracking_get_crash_count
        (memfault_reboot_tracking_boot region none) = 0) := by
  constructor
  · intro info
    simp [memfault_reboot_tracking_booted, memfault_reboot_tracking_boot,
      bootFromRecord]
  · intro hdec
    rw [memfault_reboot_tracking_boot, hdec]
    constructor <;> rfl

/-- Witness for C4 at the all-0xFF region: it fails to decode and boot
degrades to prior_stored_reason Unknown with crash count 0. -/
theorem c4_garbage_region_safe_witness :
    memfault_reboot_tracking_get_reboot_reason
      (memfault_reboot_tracking_boot (List.replicate 64 0xff) none) =
      Except.ok { reboot_reg_reason := .Unknown
                  prior_stored_reason := .Unknown } ∧
    memfault_reboot_tracking_get_crash_count
      (memfault_reboot_tracking_boot (List.replicate 64 0xff) none) = 0 :=
  (c4_garbage_region_safe (List.replicate 64 0xff)).2 (by decide)

/-- C5: during boot reconciliation the crash count is incremented
exactly when the reboot is classified unexpected, the increment
saturates at crashCountMax, and an increment never wraps the counter to
zero. -/
theorem c5_crash_count_increment (rec : RebootRecord)
    (info : Option sResetBootupInfo)
    (hmax : rec.crash_count ≤ crashCountMax) :
    ∃ sn, (bootFromRecord rec info).snapshot = some sn ∧
      (bootFromRecord rec info).record.crash_count =
        (if sn.unexpected_occurred then
          min (rec.crash_count + 1) crashCountMax
         else rec.crash_count) ∧
      (sn.unexpected_occurred = true →
        (bootFromRecord rec info).record.crash_count ≠ 0) ∧
      (bootFromRecord rec info).record.crash_count ≤ crashCountMax := by
  refine ⟨_, rfl, ?_, ?_, ?_⟩
  · simp [bootFromRecord]
  · intro hun
    simp only [bootFromRecord] at hun ⊢
    rw [if_pos hun]
    have h1 : 1 ≤ min (rec.crash_count + 1) crashCountMax := by
      rw [le_min_iff]
      exact ⟨Nat.succ_le_succ (Nat.zero_le _), by decide⟩
    omega
  · simp only [bootFromRecord]
    split
    · exact min_le_right _ _
    · exact hmax

/-- Witness for C5: booting over a record with a pending Assert reason
and crash count 0 classifies the reboot unexpected and yields crash
count 1 (non-zero, within the bound). -/
theorem c5_crash_count_increment_witness :
    ∃ sn, (bootFromRecord { freshRecord with
        pending_reason := some .Assert } none).snapshot = some sn ∧
      (bootFromRecord { freshRecord with
        pending_reason := some .Assert } none).record.crash_count =
        (if sn.unexpected_occurred then min (0 + 1) crashCountMax
         else 0) ∧
      (sn.unexpected_occurred = true →
        (bootFromRecord { freshRecord with
          pending_reason := some .Assert } none).record.crash_count ≠ 0) ∧
      (bootFromRecord { freshRecord with
        pending_reason := some .Assert } none).record.crash_count ≤
        crashCountMax :=
  c5_crash_count_increment
    { freshRecord with pending_reason := some .Assert } none (by decide)

/-- C6: in any state where boot has run, reset_crash_count followed
immediately by get_crash_count returns 0. -/
theorem c6_reset_then_get_crash_count (s : MfltState)
    (hb : memfault_reboot_tracking_booted s = true) :
    memfault_reboot_tracking_get_crash_count
      (memfault_reboot_tracking_reset_crash_count s) = 0 := by
  simp only [memfault_reboot_tracking_booted] at hb
  simp [memfault_reboot_tracking_get_crash_count,
    memfault_reboot_tracking_reset_crash_count, hb]

/-- Witness for C6 at a concrete booted state. -/
theorem c6_reset_then_get_crash_count_witness :
    memfault_reboot_tracking_get_crash_count
      (memfault_reboot_tracking_reset_crash_count sampleBootedState) = 0 :=
  c6_reset_then_get_crash_count sampleBootedState (by decide)

/-- C7 counterexample: in the NotBooted state get_crash_count does not
fail with a non-zero return as the claim states; it returns the plain
value 0 (it has no error channel, per the size_t signature in
reboot_tracking.h and spec section 4.3). -/
theorem c7_counterexample :
    memfault_reboot_tracking_booted initialMfltState = false ∧
    ¬ memfault_reboot_tracking_get_crash_count initialMfltState ≠ 0 := by
  decide

/-- C7 (amended): before boot has run, get_reboot_reason and
get_unexpected_reboot_occurred fail with the non-zero invalid-state code
1, while get_crash_count returns the plain value 0 with no error
indication; once booted, the Booted state is permanent under every
subsequent operation. -/
theorem c7_notbooted_queries (s t : MfltState) (ops : List MfltOp)
    (hnb : s.snapshot = none)
    (hb : memfault_reboot_tracking_booted t = true) :
    memfault_reboot_tracking_get_reboot_reason s = Except.error 1 ∧
    memfault_reboot_tracking_get_unexpected_reboot_occurred s =
      Except.error 1 ∧
    memfault_reboot_tracking_booted s = false ∧
    memfault_reboot_tracking_get_crash_count s = 0 ∧
    memfault_reboot_tracking_booted
      (ops.foldl (fun a op => applyOp op a) t) = true := by
  refine ⟨?_, ?_, ?_, ?_, ?_⟩
  · simp [memfault_reboot_tracking_get_reboot_reason, hnb]
  · simp [memfault_reboot_tracking_get_unexpected_reboot_occurred, hnb]
  · simp [memfault_reboot_tracking_booted, hnb]
  · simp [memfault_reboot_tracking_get_crash_count, hnb]
  · have hstep : ∀ (op : MfltOp) (a : MfltState),
        memfault_reboot_tracking_booted a = true →
        memfault_reboot_tracking_booted (applyOp op a) = true := by
      intro op a ha
      simp only [memfault_reboot_tracking_booted] at ha ⊢
      rcases hsnap : a.snapshot with _ | sn
      · rw [hsnap] at ha
        simp at ha
      · cases op with
        | markResetImminent r reg =>
            simp only [applyOp, memfault_reboot_tracking_mark_reset_imminent]
            split
            · simp [hsnap]
            · cases reg <;> simp [hsnap]
        | markCoredumpSaved =>
            simp only [applyOp, memfault_reboot_tracking_mark_coredump_saved]
            split <;> simp [hsnap]
        | resetCrashCount =>
            simp [applyOp, memfault_reboot_tracking_reset_crash_count, hsnap]
        | collectResetInfo k =>
            simp only [applyOp]
            rcases collect_cases a k with h | ⟨sn2, i, k2, _, _, _, h⟩ | h <;>
              rw [h] <;> simp [hsnap]
    induction ops generalizing t with
    | nil => exact hb
    | cons op rest ih =>
        simp only [List.foldl_cons]
        exact ih _ (hstep op t hb)

/-- Witness for C7 (amended) at the initial state, a concrete booted
state, and a concrete operation sequence. -/
theorem c7_notbooted_queries_witness :
    memfault_reboot_tracking_get_reboot_reason initialMfltState =
      Except.error 1 ∧
    memfault_reboot_tracking_get_unexpected_reboot_occurred
      initialMfltState = Except.error 1 ∧
    memfault_reboot_tracking_booted initialMfltState = false ∧
    memfault_reboot_tracking_get_crash_count initialMfltState = 0 ∧
    memfault_reboot_tracking_booted
      ([MfltOp.resetCrashCount, MfltOp.markCoredumpSaved].foldl
        (fun a op => applyOp op a) sampleBootedState) = true :=
  c7_notbooted_queries initialMfltState sampleBootedState
    [MfltOp.resetCrashCount, MfltOp.markCoredumpSaved] rfl (by decide)

/-- C8: the coredump-saved flag is driven by the coredump writer's
confirmation.  When memfault_coredump_save reports failure the fault
handler leaves the flag untouched (mark_coredump_saved is not invoked);
mark_coredump_saved itself is ignored when no reason is latched; and
when the save succeeds with a reason already latched the flag is set. -/
theorem c8_coredump_saved_confirmation (st : RiscvFaultState)
    (regs : sMfltRegState) (reason : eMemfaultRebootReason)
    (s : MfltState) :
    ((memfault_fault_handler regs reason false
        st).state.mflt.record.coredump_saved =
      st.mflt.record.coredump_saved) ∧
    (s.record.pending_reason = none →
      memfault_reboot_tracking_mark_coredump_saved s = s) ∧
    (st.mflt.record.pending_reason.isSome = true →
      (memfault_fault_handler regs reason true
        st).state.mflt.record.coredump_saved = true) := by
  refine ⟨?_, ?_, ?_⟩
  · unfold memfault_fault_handler
    simp only [Bool.false_eq_true, if_false]
    split
    · rename_i hU
      unfold prv_fault_handling_assert
      rw [if_pos hU]
      unfold memfault_reboot_tracking_mark_reset_imminent
      split
      · rfl
      · split <;> rfl
    · rfl
  · intro h
    simp [memfault_reboot_tracking_mark_coredump_saved, h]
  · intro h
    have hstable : ((if st.s_crash_reason = eMemfaultRebootReason.Unknown
          then prv_fault_handling_assert regs.mepc regs.ra reason st
          else st)).mflt.record.pending_reason.isSome = true := by
      split
      · rename_i hU
        unfold prv_fault_handling_assert
        rw [if_pos hU]
        simp only
        rw [mark_reset_imminent_latched _ _ _ h]
        exact h
      · exact h
    unfold memfault_fault_handler
    simp only [if_true]
    unfold memfault_reboot_tracking_mark_coredump_saved
    rw [if_pos hstable]

/-- Witness for C8 at a concrete latched state: a failed save leaves the
flag clear, mark_coredump_saved on an unlatched state is the identity,
and a successful save sets the flag. -/
theorem c8_coredump_saved_confirmation_witness :
    ((memfault_fault_handler { mepc := 5, ra := 6, sp := 7 } .HardFault
        false
        { s_crash_reason := .Assert
          mflt := { record := { freshRecord with
                      pending_reason := some .Assert }
                    snapshot := none
                    resetInfoExported := false }
          markLog := [.Assert] }).state.mflt.record.coredump_saved =
      ({ s_crash_reason := .Assert
         mflt := { record := { freshRecord with
                     pending_reason := some .Assert }
                   snapshot := none
                   resetInfoExported := false }
         markLog := [.Assert] } :
        RiscvFaultState).mflt.record.coredump_saved) ∧
    (memfault_reboot_tracking_mark_coredump_saved initialMfltState =
      initialMfltState) ∧
    ((memfault_fault_handler { mepc := 5, ra := 6, sp := 7 } .HardFault
        true
        { s_crash_reason := .Assert
          mflt := { record := { freshRecord with
                      pending_reason := some .Assert }
                    snapshot := none
                    resetInfoExported := false }
          markLog := [.Assert] }).state.mflt.record.coredump_saved =
      true) := by
  have h := c8_coredump_saved_confirmation
    { s_crash_reason := .Assert
      mflt := { record := { freshRecord with pending_reason := some .Assert }
                snapshot := none
                resetInfoExported := false }
      markLog := [.Assert] }
    { mepc := 5, ra := 6, sp := 7 } .HardFault initialMfltState
  exact ⟨h.1, h.2.1 rfl, h.2.2 (by decide)⟩

/-- C9: a fault-handling assert call carrying reason Unknown does not
close the latch: s_crash_reason remains Unknown afterwards, so a later
call with a non-Unknown reason passes the guard, latches that reason
into s_crash_reason, and invokes
memfault_reboot_tracking_mark_reset_imminent with it; consequently
mark_reset_imminent is invoked more than once in the boot cycle. -/
theorem c9_unknown_does_not_close_latch (st : RiscvFaultState)
    (pc1 lr1 pc2 lr2 : Nat) (r : eMemfaultRebootReason)
    (hfresh : st.s_crash_reason = eMemfaultRebootReason.Unknown)
    (hr : r ≠ eMemfaultRebootReason.Unknown) :
    (prv_fault_handling_assert pc1 lr1 .Unknown st).s_crash_reason =
      eMemfaultRebootReason.Unknown ∧
    (prv_fault_handling_assert pc2 lr2 r
      (prv_fault_handling_assert pc1 lr1 .Unknown st)).s_crash_reason =
      r ∧
    (prv_fault_handling_assert pc2 lr2 r
      (prv_fault_handling_assert pc1 lr1 .Unknown st)).markLog =
      st.markLog ++ [.Unknown, r] := by
  have h1 : (prv_fault_handling_assert pc1 lr1 .Unknown st).s_crash_reason =
      eMemfaultRebootReason.Unknown := by
    rw [prv_assert_run _ _ _ _ hfresh]
  have h1log : (prv_fault_handling_assert pc1 lr1 .Unknown st).markLog =
      st.markLog ++ [.Unknown] := by
    rw [prv_assert_run _ _ _ _ hfresh]
  refine ⟨h1, ?_, ?_⟩
  · rw [prv_assert_run _ _ _ _ h1]
  · rw [prv_assert_run _ _ _ _ h1]
    simp [h1log]

/-- Witness for C9: from a fresh boot-cycle state, an Unknown call then
a HardFault call leaves s_crash_reason at HardFault with both reasons
passed to mark_reset_imminent. -/
theorem c9_unknown_does_not_close_latch_witness :
    (prv_fault_handling_assert 1 2 .Unknown
      sampleFreshFaultState).s_crash_reason =
      eMemfaultRebootReason.Unknown ∧
    (prv_fault_handling_assert 3 4 .HardFault
      (prv_fault_handling_assert 1 2 .Unknown
        sampleFreshFaultState)).s_crash_reason =
      eMemfaultRebootReason.HardFault ∧
    (prv_fault_handling_assert 3 4 .HardFault
      (prv_fault_handling_assert 1 2 .Unknown
        sampleFreshFaultState)).markLog =
      sampleFreshFaultState.markLog ++ [.Unknown, .HardFault] :=
  c9_unknown_does_not_close_latch sampleFreshFaultState 1 2 3 4
    .HardFault rfl (by decide)

/-- C10: when the fault handler runs after a reason has already been
latched (s_crash_reason is not Unknown), the coredump is saved with
trace_reason equal to that first latched reason, not the reason argument
of the current call. -/
theorem c10_trace_reason_first_latched (st : RiscvFaultState)
    (regs : sMfltRegState) (reason : eMemfaultRebootReason)
    (save_ok : Bool)
    (h : st.s_crash_reason ≠ eMemfaultRebootReason.Unknown) :
    (memfault_fault_handler regs reason save_ok st).trace_reason =
      st.s_crash_reason := by
  unfold memfault_fault_handler
  simp only
  rw [if_neg h]

/-- Witness for C10: a handler invocation with argument Assert on a
state whose latched reason is HardFault saves a coredump with trace
reason HardFault. -/
theorem c10_trace_reason_first_latched_witness :
    (memfault_fault_handler { mepc := 9, ra := 10, sp := 11 } .Assert true
      { s_crash_reason := .HardFault
        mflt := initialMfltState
        markLog := [.HardFault] }).trace_reason =
      eMemfaultRebootReason.HardFault :=
  c10_trace_reason_first_latched
    { s_crash_reason := .HardFault
      mflt := initialMfltState
      markLog := [.HardFault] }
    { mepc := 9, ra := 10, sp := 11 } .Assert true (by decide)
